import Mathlib

/-
Verification of the Tour Perret sensor-data import pipeline
(`src/import_data.py`, `src/visualize_gateways.py`) against its
natural-language specification.

The Python values produced by `json.loads` are embedded as the inductive
type `PyVal`; `parse_sensor_record` and the import loop of
`SensorDataImporter.import_data` are translated as executable Lean
functions.  The external pieces (the `json` standard library, the
psycopg2 database driver) are modelled at their interfaces: a decoded
line is an `Option PyVal` (`none` models `json.JSONDecodeError`), and the
sink is a list of committed rows together with a per-flush success oracle
(`wOk : Nat → Bool`) standing for the outcome of each
`execute_batch`/`commit` transaction.  All Python exceptions raised while
processing one record are caught uniformly by `parse_sensor_record`'s
`except` clauses, so the embedding collapses them to a unit error.
-/

/-- A Python value as produced by `json.loads`: `None`, `bool`, a number
(Python `int` and `float` collapsed into `Rat`), `str`, `list`, or `dict`
with string keys (JSON object).  JSON `null` and Python `None` are the
same value, as in Python. -/
inductive PyVal where
  | none
  | bool (b : Bool)
  | num (q : Rat)
  | str (s : String)
  | list (xs : List PyVal)
  | dict (kvs : List (String × PyVal))
deriving Repr

mutual

/-- Decidable equality on `PyVal` (written by hand: the nested inductive
defeats the automatic deriving). -/
def PyVal.deq : (a b : PyVal) → Decidable (a = b)
  | .none, .none => isTrue rfl
  | .bool a, .bool b =>
    match decEq a b with
    | isTrue h => isTrue (by rw [h])
    | isFalse h => isFalse (by intro hh; cases hh; exact h rfl)
  | .num a, .num b =>
    match decEq a b with
    | isTrue h => isTrue (by rw [h])
    | isFalse h => isFalse (by intro hh; cases hh; exact h rfl)
  | .str a, .str b =>
    match decEq a b with
    | isTrue h => isTrue (by rw [h])
    | isFalse h => isFalse (by intro hh; cases hh; exact h rfl)
  | .list a, .list b =>
    match PyVal.deqList a b with
    | isTrue h => isTrue (by rw [h])
    | isFalse h => isFalse (by intro hh; cases hh; exact h rfl)
  | .dict a, .dict b =>
    match PyVal.deqKVs a b with
    | isTrue h => isTrue (by rw [h])
    | isFalse h => isFalse (by intro hh; cases hh; exact h rfl)
  | .none, .bool _ | .none, .num _ | .none, .str _ | .none, .list _ | .none, .dict _ =>
    isFalse (by intro h; cases h)
  | .bool _, .none | .bool _, .num _ | .bool _, .str _ | .bool _, .list _ | .bool _, .dict _ =>
    isFalse (by intro h; cases h)
  | .num _, .none | .num _, .bool _ | .num _, .str _ | .num _, .list _ | .num _, .dict _ =>
    isFalse (by intro h; cases h)
  | .str _, .none | .str _, .bool _ | .str _, .num _ | .str _, .list _ | .str _, .dict _ =>
    isFalse (by intro h; cases h)
  | .list _, .none | .list _, .bool _ | .list _, .num _ | .list _, .str _ | .list _, .dict _ =>
    isFalse (by intro h; cases h)
  | .dict _, .none | .dict _, .bool _ | .dict _, .num _ | .dict _, .str _ | .dict _, .list _ =>
    isFalse (by intro h; cases h)

/-- Decidable equality on lists of `PyVal`. -/
def PyVal.deqList : (a b : List PyVal) → Decidable (a = b)
  | [], [] => isTrue rfl
  | [], _ :: _ => isFalse (by intro h; cases h)
  | _ :: _, [] => isFalse (by intro h; cases h)
  | x :: xs, y :: ys =>
    match PyVal.deq x y, PyVal.deqList xs ys with
    | isTrue h1, isTrue h2 => isTrue (by rw [h1, h2])
    | isFalse h1, _ => isFalse (by intro hh; cases hh; exact h1 rfl)
    | _, isFalse h2 => isFalse (by intro hh; cases hh; exact h2 rfl)

/-- Decidable equality on string-keyed association lists of `PyVal`. -/
def PyVal.deqKVs : (a b : List (String × PyVal)) → Decidable (a = b)
  | [], [] => isTrue rfl
  | [], _ :: _ => isFalse (by intro h; cases h)
  | _ :: _, [] => isFalse (by intro h; cases h)
  | (k, v) :: xs, (k2, v2) :: ys =>
    match decEq k k2, PyVal.deq v v2, PyVal.deqKVs xs ys with
    | isTrue h0, isTrue h1, isTrue h2 => isTrue (by rw [h0, h1, h2])
    | isFalse h0, _, _ => isFalse (by intro hh; cases hh; exact h0 rfl)
    | _, isFalse h1, _ => isFalse (by intro hh; cases hh; exact h1 rfl)
    | _, _, isFalse h2 => isFalse (by intro hh; cases hh; exact h2 rfl)

end

instance : DecidableEq PyVal := PyVal.deq

/-- Python truthiness (`if not x`): `None`, `False`, `0`, `""`, `[]`, and
an empty dict are falsy, everything else truthy. -/
def pyTruthy : PyVal → Bool
  | PyVal.none => false
  | PyVal.bool b => b
  | PyVal.num q => q != 0
  | PyVal.str s => s != ""
  | PyVal.list xs => !xs.isEmpty
  | PyVal.dict kvs => !kvs.isEmpty

/-- Association-list lookup for Python dict member access (keys are
assumed distinct, as `json.loads` produces). -/
def dictGet (kvs : List (String × PyVal)) (k : String) : Option PyVal :=
  List.lookup k kvs

/-- Python `d.get(key)`: the value if the key is present, `None`
otherwise. -/
def dg (kvs : List (String × PyVal)) (k : String) : PyVal :=
  (dictGet kvs k).getD PyVal.none

/-- Python `d.get(key, default)`. -/
def dgD (kvs : List (String × PyVal)) (k : String) (d : PyVal) : PyVal :=
  (dictGet kvs k).getD d

/-- Python member access `v.get(...)` requires `v` to be a dict; any
other value raises `AttributeError`.  All exceptions raised while
parsing a record are caught uniformly, so the error is a unit. -/
def asDict : PyVal → Except Unit (List (String × PyVal))
  | PyVal.dict kvs => Except.ok kvs
  | _ => Except.error ()

/-- Python subscripting `v[i]` for a nonnegative index: a list yields the
element or raises `IndexError` when out of range, a string yields the
one-character substring or raises `IndexError`, and any other value
raises `TypeError`. -/
def pyIndex (v : PyVal) (i : Nat) : Except Unit PyVal :=
  match v with
  | PyVal.list xs =>
    match xs.get? i with
    | some x => Except.ok x
    | Option.none => Except.error ()
  | PyVal.str s =>
    match s.toList.get? i with
    | some c => Except.ok (PyVal.str (String.singleton c))
    | Option.none => Except.error ()
  | _ => Except.error ()

/-- Proleptic-Gregorian civil date (year, month, day) from a count of
days since 1970-01-01, by the standard era-based conversion. -/
def civilFromDays (z0 : Int) : Int × Int × Int :=
  let z := z0 + 719468
  let era : Int := Int.fdiv z 146097
  let doe : Int := z - era * 146097
  let yoe : Int :=
    Int.fdiv (doe - Int.fdiv doe 1460 + Int.fdiv doe 36524 - Int.fdiv doe 146096) 365
  let y : Int := yoe + era * 400
  let doy : Int := doe - (365 * yoe + Int.fdiv yoe 4 - Int.fdiv yoe 100)
  let mp : Int := Int.fdiv (5 * doy + 2) 153
  let d : Int := doy - Int.fdiv (153 * mp + 2) 5 + 1
  let m : Int := if mp < 10 then mp + 3 else mp - 9
  (if m ≤ 2 then y + 1 else y, m, d)

/-- Two-digit zero padding for date components. -/
def pad2 (n : Int) : String :=
  (if n < 10 then "0" else "") ++ toString n

/-- Four-digit zero padding for the year. -/
def pad4 (n : Int) : String :=
  if n < 0 then toString n
  else String.mk (List.replicate (4 - (toString n).length) '0') ++ toString n

/-- Six-digit zero padding for microseconds. -/
def pad6 (n : Int) : String :=
  if n < 0 then toString n
  else String.mk (List.replicate (6 - (toString n).length) '0') ++ toString n

/-- `datetime.fromtimestamp(ms / 1000).isoformat()` for `ms` milliseconds
since the epoch: the `/ 1000` of line 68 is folded into the conversion,
which is carried out exactly in integer arithmetic over the rational's
numerator and denominator (total microseconds = ⌊ms·1000⌋).  Modelled in
UTC (the Python call uses the process-local time zone and binary floats;
the pipeline's documented behaviour assumes UTC).  The microsecond part
is printed only when nonzero, as `isoformat` does. -/
def fromtimestampMsIso (ms : Rat) : String :=
  let totalMicro : Int := Int.fdiv (ms.num * 1000) (ms.den : Int)
  let sec : Int := Int.fdiv totalMicro 1000000
  let micro : Int := totalMicro - sec * 1000000
  let days : Int := Int.fdiv sec 86400
  let sod : Int := sec - days * 86400
  let ymd := civilFromDays days
  let hh := Int.fdiv sod 3600
  let mm := Int.fdiv (sod - hh * 3600) 60
  let ss := sod - hh * 3600 - mm * 60
  pad4 ymd.1 ++ "-" ++ pad2 ymd.2.1 ++ "-" ++ pad2 ymd.2.2 ++ "T" ++
    pad2 hh ++ ":" ++ pad2 mm ++ ":" ++ pad2 ss ++
    (if micro = 0 then "" else "." ++ pad6 micro)

/-- Rendering of a number for `json.dumps`: integers print as integers;
the rendering of non-integer rationals is a simplification (Python
prints float notation) that no verified property depends on. -/
def numStr (q : Rat) : String :=
  if q.den = 1 then toString q.num else toString q

/-- A JSON string literal: quoted, with backslash and quote escaped. -/
def strQuote (s : String) : String :=
  "\"" ++ (s.replace "\\" "\\\\").replace "\"" "\\\"" ++ "\""

mutual

/-- A structural size of a `PyVal`, strictly larger than the size of any
nested value; used as recursion fuel for `json_dumps`. -/
def PyVal.fuel : PyVal → Nat
  | PyVal.none => 1
  | PyVal.bool _ => 1
  | PyVal.num _ => 1
  | PyVal.str _ => 1
  | PyVal.list xs => PyVal.fuelList xs + 1
  | PyVal.dict kvs => PyVal.fuelKVs kvs + 1

/-- Size of a list of `PyVal`, for `PyVal.fuel`. -/
def PyVal.fuelList : List PyVal → Nat
  | [] => 1
  | x :: xs => PyVal.fuel x + PyVal.fuelList xs + 1

/-- Size of an association list of `PyVal`, for `PyVal.fuel`. -/
def PyVal.fuelKVs : List (String × PyVal) → Nat
  | [] => 1
  | kv :: xs => PyVal.fuel kv.2 + PyVal.fuelKVs xs + 1

end

/-- `json.dumps` with a structural fuel argument (the nested recursion
through lists is made structural on the fuel; `json_dumps` supplies
`PyVal.fuel v`, which always exceeds the nesting depth, so the fuel never
runs out on actual values).  Separators are Python's defaults. -/
def dumpsF : Nat → PyVal → String
  | 0, _ => ""
  | Nat.succ n, v =>
    match v with
    | PyVal.none => "null"
    | PyVal.bool b => if b then "true" else "false"
    | PyVal.num q => numStr q
    | PyVal.str s => strQuote s
    | PyVal.list xs => "[" ++ String.intercalate ", " (xs.map (dumpsF n)) ++ "]"
    | PyVal.dict kvs =>
      "\x7b" ++
        String.intercalate ", " (kvs.map (fun kv => strQuote kv.1 ++ ": " ++ dumpsF n kv.2)) ++
        "\x7d"

/-- `json.dumps(v)`. -/
def json_dumps (v : PyVal) : String := dumpsF (PyVal.fuel v) v

/-- The timestamp resolution of `parse_sensor_record` (lines 66-68):
`timestamp = data.get('_date')`; if that value is falsy,
`timestamp = datetime.fromtimestamp(data.get('_timestamp', 0) / 1000).isoformat()`.
The division raises `TypeError` when `_timestamp` holds a non-numeric
value (Python `bool` divides as 0 or 1). -/
def resolveTs (data : List (String × PyVal)) : Except Unit PyVal :=
  let t0 := dg data "_date"
  if pyTruthy t0 then Except.ok t0
  else
    match dgD data "_timestamp" (PyVal.num 0) with
    | PyVal.num q => Except.ok (PyVal.str (fromtimestampMsIso q))
    | PyVal.bool b => Except.ok (PyVal.str (fromtimestampMsIso (if b then (1 : Rat) else 0)))
    | _ => Except.error ()

/-- The 34-element row tuple built by `parse_sensor_record` (lines
83-128), given the record dict and the already-resolved substructures:
`rx` = `rx_info`, `devloc` = `_devLocation`, `gwloc` = `rx_info['location']`,
`tx` = `txInfo`, `sobj` = `object`. -/
def mkRow (data : List (String × PyVal)) (timestamp : PyVal)
    (rx devloc gwloc tx sobj : List (String × PyVal)) : List PyVal :=
  [ timestamp,
    dg data "applicationName",
    dg data "deviceName",
    dg data "devEUI",
    dg devloc "latitude",
    dg devloc "longitude",
    dg devloc "altitude",
    dg devloc "place",
    dg rx "gatewayID",
    dg gwloc "latitude",
    dg gwloc "longitude",
    dg gwloc "altitude",
    dg rx "rssi",
    dg rx "loRaSNR",
    dg tx "frequency",
    dg tx "dr",
    dg data "adr",
    dg data "fCnt",
    dg data "fPort",
    dg sobj "temperature",
    dg sobj "humidity",
    dg sobj "dewpoint",
    dg sobj "vdd",
    dg sobj "accMotion",
    dg sobj "digital",
    dg sobj "waterleak",
    dg sobj "pulseAbs",
    dg sobj "x",
    dg sobj "y",
    dg sobj "z",
    dg data "_redundancy",
    dg data "_topic",
    dg data "data",
    PyVal.str (json_dumps (PyVal.dict sobj)) ]

/-- The body of `parse_sensor_record` after `json.loads` succeeded
(lines 64-128).  A non-dict document fails at the first `.get`
(`AttributeError`); `rxInfo` defaults to `[ {} ]` and is subscripted at
index 0 (an empty present list raises `IndexError`); `_devLocation`,
`txInfo`, `object`, and `rx_info['location']` default to `{}` and each
must be a dict by the time it is first `.get`-accessed.  All raised
exceptions are caught by the function's `except` clauses, yielding
`none`; the relative order of the dict-ness checks is irrelevant at this
level because every failure collapses to `none`. -/
def parse_decoded (v : PyVal) : Option (List PyVal) :=
  match v with
  | PyVal.dict data =>
    match resolveTs data with
    | Except.error _ => Option.none
    | Except.ok timestamp =>
    match pyIndex (dgD data "rxInfo" (PyVal.list [PyVal.dict []])) 0 with
    | Except.error _ => Option.none
    | Except.ok rx_info =>
    match asDict rx_info with
    | Except.error _ => Option.none
    | Except.ok rx =>
    match asDict (dgD rx "location" (PyVal.dict [])) with
    | Except.error _ => Option.none
    | Except.ok gwloc =>
    match asDict (dgD data "_devLocation" (PyVal.dict [])) with
    | Except.error _ => Option.none
    | Except.ok devloc =>
    match asDict (dgD data "txInfo" (PyVal.dict [])) with
    | Except.error _ => Option.none
    | Except.ok tx =>
    match asDict (dgD data "object" (PyVal.dict [])) with
    | Except.error _ => Option.none
    | Except.ok sobj => some (mkRow data timestamp rx devloc gwloc tx sobj)
  | _ => Option.none

/-- One raw input line, abstracted at the boundary of the external
`json` library: `blank` says whether `line.strip()` is empty, and
`decoded` is the result of `json.loads(line.strip())` (`none` models
`json.JSONDecodeError`). -/
structure InputLine where
  blank : Bool
  decoded : Option PyVal
deriving Repr, DecidableEq

/-- `parse_sensor_record(line)`: decode failure or any exception during
extraction returns `None`; success returns the 34-value tuple. -/
def parse_sensor_record (line : InputLine) : Option (List PyVal) :=
  match line.decoded with
  | Option.none => Option.none
  | some v => parse_decoded v

/-- The mutable state of `import_data`'s loop: the pending `batch`, the
three counters, plus the observable sink state — `flushes` counts
`execute_batch` transactions attempted, `sink` holds committed rows. -/
structure ImportState where
  batch : List (List PyVal)
  total_lines : Nat
  imported_lines : Nat
  error_count : Nat
  flushes : Nat
  sink : List (List PyVal)
deriving Repr

/-- The state at the top of `import_data`: empty batch, zero counters,
empty sink. -/
def initState : ImportState :=
  { batch := [], total_lines := 0, imported_lines := 0, error_count := 0,
    flushes := 0, sink := [] }

/-- One flush (`execute_batch` + `commit`, lines 192-202 / 210-218):
on success the batch is committed to the sink and cleared; on failure
the transaction is rolled back (sink unchanged) and, under the skip
policy, the batch is cleared and the run continues, while under
stop-on-error the exception is re-raised before `batch = []` runs
(the error side carries the state at the raise). -/
def flushBatch (skip_errors : Bool) (ok : Bool) (st : ImportState) :
    Except ImportState ImportState :=
  if ok then
    Except.ok { st with sink := st.sink ++ st.batch, batch := [], flushes := st.flushes + 1 }
  else if skip_errors then
    Except.ok { st with batch := [], flushes := st.flushes + 1 }
  else
    Except.error { st with flushes := st.flushes + 1 }

/-- The per-line bookkeeping of the read loop (lines 180-188): count the
line; if it is non-blank, parse it, appending the row to the batch and
counting a success, or counting an error. -/
def countLine (st : ImportState) (ln : InputLine) : ImportState :=
  let st1 := { st with total_lines := st.total_lines + 1 }
  if ln.blank then st1
  else
    match parse_sensor_record ln with
    | some r =>
      { st1 with batch := st1.batch ++ [r], imported_lines := st1.imported_lines + 1 }
    | Option.none => { st1 with error_count := st1.error_count + 1 }

/-- One iteration of the read loop (lines 179-202): the per-line
bookkeeping, then a flush whenever the batch has reached `batch_size`.
`wOk n` is the outcome of the n-th flush transaction. -/
def processLine (batch_size : Nat) (skip_errors : Bool) (wOk : Nat → Bool)
    (st : ImportState) (ln : InputLine) : Except ImportState ImportState :=
  let st2 := countLine st ln
  if batch_size ≤ st2.batch.length then flushBatch skip_errors (wOk st2.flushes) st2
  else Except.ok st2

/-- The read loop over the whole input (the `for` of line 179); an
`error` result is the stop-on-error `raise` escaping the loop. -/
def runLines (batch_size : Nat) (skip_errors : Bool) (wOk : Nat → Bool) :
    ImportState → List InputLine → Except ImportState ImportState
  | st, [] => Except.ok st
  | st, ln :: rest =>
    match processLine batch_size skip_errors wOk st ln with
    | Except.error s => Except.error s
    | Except.ok s => runLines batch_size skip_errors wOk s rest

/-- The printed import summary (lines 220-226): totals, counts, and the
success rate `imported_lines / total_lines * 100`. -/
structure Summary where
  total : Nat
  success : Nat
  errors : Nat
  rate : Rat
deriving Repr, DecidableEq

/-- How one call to `import_data` terminates: `done` carries the printed
summary; `aborted` is the re-raised batch-write error under stop-on-error
(fatal, no summary printed); `divByZero` is the `ZeroDivisionError` from
the success-rate expression when `total_lines = 0` (fatal, no summary
printed).  Each carries the final coordinator state. -/
inductive RunOutcome where
  | done (s : Summary) (st : ImportState)
  | aborted (st : ImportState)
  | divByZero (st : ImportState)
deriving Repr

/-- `SensorDataImporter.import_data` (lines 136-238) over an abstract
line stream: run the read loop, flush the remaining batch if non-empty
(lines 209-218), then print the summary (lines 220-226) — whose
success-rate division raises `ZeroDivisionError` when no line was read.
Write outcomes come from the oracle `wOk`. -/
def import_data (batch_size : Nat) (skip_errors : Bool) (wOk : Nat → Bool)
    (lines : List InputLine) : RunOutcome :=
  match runLines batch_size skip_errors wOk initState lines with
  | Except.error st => RunOutcome.aborted st
  | Except.ok st =>
    match
      (if st.batch.isEmpty then Except.ok st
       else flushBatch skip_errors (wOk st.flushes) st) with
    | Except.error st2 => RunOutcome.aborted st2
    | Except.ok st2 =>
      if st2.total_lines = 0 then RunOutcome.divByZero st2
      else
        RunOutcome.done
          { total := st2.total_lines, success := st2.imported_lines,
            errors := st2.error_count,
            rate := (st2.imported_lines : Rat) / (st2.total_lines : Rat) * 100 }
          st2

/-- The final coordinator state, whatever the outcome. -/
def RunOutcome.state : RunOutcome → ImportState
  | RunOutcome.done _ st => st
  | RunOutcome.aborted st => st
  | RunOutcome.divByZero st => st

/-- The summary the run printed, if it printed one. -/
def RunOutcome.summaryOf : RunOutcome → Option Summary
  | RunOutcome.done s _ => some s
  | RunOutcome.aborted _ => Option.none
  | RunOutcome.divByZero _ => Option.none

/-- Whether the run was aborted by a re-raised write error. -/
def RunOutcome.isAborted : RunOutcome → Bool
  | RunOutcome.aborted _ => true
  | _ => false

/-- Number of non-blank lines of the stream that parse successfully. -/
def linesParsedOk (lines : List InputLine) : Nat :=
  (lines.filter (fun ln => !ln.blank && (parse_sensor_record ln).isSome)).length

/-- Number of non-blank lines of the stream whose decode or extraction
fails. -/
def linesFailed (lines : List InputLine) : Nat :=
  (lines.filter (fun ln => !ln.blank && (parse_sensor_record ln).isNone)).length

/-- The projection of one sink row performed by `get_gateways`' query
(`src/visualize_gateways.py` lines 26-35): the `(gateway_id,
gateway_latitude, gateway_longitude)` triple of a row whose two
coordinates are non-NULL (columns 8, 9, 10 of the insertion schema). -/
def gwProj (r : List PyVal) : Option (PyVal × PyVal × PyVal) :=
  let lat := r.getD 9 PyVal.none
  let lon := r.getD 10 PyVal.none
  if lat ≠ PyVal.none ∧ lon ≠ PyVal.none then some (r.getD 8 PyVal.none, lat, lon)
  else Option.none

/-- `get_gateways()` (`src/visualize_gateways.py` lines 21-43): `SELECT
DISTINCT gateway_id, gateway_latitude, gateway_longitude FROM sensor_data
WHERE gateway_latitude IS NOT NULL AND gateway_longitude IS NOT NULL`,
over the sink's rows.  The trailing `ORDER BY gateway_id` only permutes
the result set and is not modelled; the verified contract is about which
triples the query returns. -/
def get_gateways (rows : List (List PyVal)) : List (PyVal × PyVal × PyVal) :=
  (rows.filterMap gwProj).dedup

/-- The column list of the `INSERT INTO sensor_data` statement
(`src/import_data.py` lines 148-166), in source order. -/
def sink_insert_columns : List String :=
  [ "time", "application_name", "device_name", "dev_eui",
    "dev_latitude", "dev_longitude", "dev_altitude", "dev_place",
    "gateway_id", "gateway_latitude", "gateway_longitude", "gateway_altitude",
    "rssi", "lora_snr",
    "frequency", "data_rate", "adr", "frame_counter", "f_port",
    "temperature", "humidity", "dewpoint", "vdd",
    "acc_motion", "digital", "waterleak", "pulse_abs",
    "x", "y", "z",
    "redundancy", "topic",
    "raw_data", "raw_object" ]

/-- Modelled from the spec: the 34-column sink row schema exactly as
listed in §6 of the specification ("order-significant, 34 columns"),
written down independently of the source to compare the two. -/
def spec_row_schema : List String :=
  [ "time", "application_name", "device_name", "dev_eui",
    "dev_latitude", "dev_longitude", "dev_altitude", "dev_place",
    "gateway_id", "gateway_latitude", "gateway_longitude", "gateway_altitude",
    "rssi", "lora_snr",
    "frequency", "data_rate", "adr", "frame_counter", "f_port",
    "temperature", "humidity", "dewpoint", "vdd",
    "acc_motion", "digital", "waterleak", "pulse_abs",
    "x", "y", "z",
    "redundancy", "topic",
    "raw_data", "raw_object" ]

/-- The state carried by either side of the loop's `Except` (the ok state
or the state at the stop-on-error raise). -/
def exState : Except ImportState ImportState → ImportState
  | Except.ok st => st
  | Except.error st => st

/-- Whether the loop result is the non-raising side. -/
def exOk : Except ImportState ImportState → Bool
  | Except.ok _ => true
  | Except.error _ => false

/-- Inversion of a successful `parse_decoded`: the document was a dict,
every substructure access succeeded, and the result is the 34-tuple
built by `mkRow`. -/
theorem parse_decoded_inv {v : PyVal} {r : List PyVal}
    (h : parse_decoded v = some r) :
    ∃ data timestamp rx_info rx gwloc devloc tx sobj,
      v = PyVal.dict data ∧
      resolveTs data = Except.ok timestamp ∧
      pyIndex (dgD data "rxInfo" (PyVal.list [PyVal.dict []])) 0 = Except.ok rx_info ∧
      asDict rx_info = Except.ok rx ∧
      asDict (dgD rx "location" (PyVal.dict [])) = Except.ok gwloc ∧
      asDict (dgD data "_devLocation" (PyVal.dict [])) = Except.ok devloc ∧
      asDict (dgD data "txInfo" (PyVal.dict [])) = Except.ok tx ∧
      asDict (dgD data "object" (PyVal.dict [])) = Except.ok sobj ∧
      r = mkRow data timestamp rx devloc gwloc tx sobj := by
  cases v with
  | dict data =>
    simp only [parse_decoded] at h
    cases hts : resolveTs data with
    | error e => simp only [hts] at h; exact Option.noConfusion h
    | ok timestamp =>
      simp only [hts] at h
      cases hri : pyIndex (dgD data "rxInfo" (PyVal.list [PyVal.dict []])) 0 with
      | error e => simp only [hri] at h; exact Option.noConfusion h
      | ok rx_info =>
        simp only [hri] at h
        cases hrx : asDict rx_info with
        | error e => simp only [hrx] at h; exact Option.noConfusion h
        | ok rx =>
          simp only [hrx] at h
          cases hgw : asDict (dgD rx "location" (PyVal.dict [])) with
          | error e => simp only [hgw] at h; exact Option.noConfusion h
          | ok gwloc =>
            simp only [hgw] at h
            cases hdv : asDict (dgD data "_devLocation" (PyVal.dict [])) with
            | error e => simp only [hdv] at h; exact Option.noConfusion h
            | ok devloc =>
              simp only [hdv] at h
              cases htx : asDict (dgD data "txInfo" (PyVal.dict [])) with
              | error e => simp only [htx] at h; exact Option.noConfusion h
              | ok tx =>
                simp only [htx] at h
                cases hob : asDict (dgD data "object" (PyVal.dict [])) with
                | error e => simp only [hob] at h; exact Option.noConfusion h
                | ok sobj =>
                  simp only [hob, Option.some.injEq] at h
                  exact ⟨data, timestamp, rx_info, rx, gwloc, devloc, tx, sobj,
                    rfl, hts, hri, hrx, hgw, hdv, htx, hob, h.symm⟩
  | none => exact absurd h (by simp [parse_decoded])
  | bool b => exact absurd h (by simp [parse_decoded])
  | num q => exact absurd h (by simp [parse_decoded])
  | str s => exact absurd h (by simp [parse_decoded])
  | list xs => exact absurd h (by simp [parse_decoded])

/-- C1, counterexample: for the decoded event `{"rxInfo": []}` — whose
reception-info field is present and an empty list — extraction does NOT
succeed: `data.get('rxInfo', [{}])[0]` raises `IndexError`, the record
parses to `None` and is counted as an error, contradicting the claim
that it is still counted as successfully extracted. -/
theorem C1_counterexample :
    parse_sensor_record ⟨false, some (PyVal.dict [("rxInfo", PyVal.list [])])⟩ =
      Option.none := by rfl

/-- C1, amended: when `rxInfo` is present and an empty list, extraction
fails (the record is counted as an error, not a success); the
gateway-derived columns (positions 8-13: gateway_id, gateway_latitude,
gateway_longitude, gateway_altitude, rssi, lora_snr) all resolve to
absent exactly when `rxInfo` is absent, in which case the default
`[{}]` supplies an empty first gateway. -/
theorem C1_theorem :
    (∀ data, dictGet data "rxInfo" = some (PyVal.list []) →
      parse_decoded (PyVal.dict data) = Option.none) ∧
    (∀ data r, dictGet data "rxInfo" = Option.none →
      parse_decoded (PyVal.dict data) = some r →
      r.get? 8 = some PyVal.none ∧ r.get? 9 = some PyVal.none ∧
      r.get? 10 = some PyVal.none ∧ r.get? 11 = some PyVal.none ∧
      r.get? 12 = some PyVal.none ∧ r.get? 13 = some PyVal.none) := by
  constructor
  · intro data h
    simp only [parse_decoded]
    cases hts : resolveTs data with
    | error e => simp only [hts]
    | ok timestamp =>
      simp only [hts]
      have hdg : dgD data "rxInfo" (PyVal.list [PyVal.dict []]) = PyVal.list [] := by
        simp [dgD, h]
      rw [hdg]
      rfl
  · intro data r h hp
    obtain ⟨data2, ts, rx_info, rx, gwloc, devloc, tx, sobj,
      hv, hts, hri, hrx, hgw, hdv, htx, hob, hr⟩ := parse_decoded_inv hp
    injection hv with hvv
    subst hvv
    have hdg : dgD data "rxInfo" (PyVal.list [PyVal.dict []]) =
        PyVal.list [PyVal.dict []] := by simp [dgD, h]
    rw [hdg] at hri
    simp only [pyIndex, List.get?] at hri
    injection hri with hri2
    subst hri2
    simp only [asDict] at hrx
    injection hrx with hrx2
    subst hrx2
    have hloc : dgD ([] : List (String × PyVal)) "location" (PyVal.dict []) =
        PyVal.dict [] := by simp [dgD, dictGet]
    rw [hloc] at hgw
    simp only [asDict] at hgw
    injection hgw with hgw2
    subst hgw2
    subst hr
    simp [mkRow, dg, dictGet]

/-- C1, witness: the amended theorem applied at `{"rxInfo": []}` (fails)
and at `{"deviceName": "d"}` (no rxInfo: gateway_id column absent). -/
theorem C1_witness :
    parse_decoded (PyVal.dict [("rxInfo", PyVal.list [])]) = Option.none ∧
    ((parse_decoded (PyVal.dict [("deviceName", PyVal.str "d")])).getD []).get? 8 =
      some PyVal.none := by
  refine ⟨C1_theorem.1 [("rxInfo", PyVal.list [])] (by rfl), ?_⟩
  exact (C1_theorem.2 [("deviceName", PyVal.str "d")]
    ((parse_decoded (PyVal.dict [("deviceName", PyVal.str "d")])).getD [])
    (by rfl) (by rfl)).1

/-- C4, counterexample: the input `{"_date": "", "_timestamp":
1704067200000}` has the ISO timestamp field PRESENT (as the empty
string), yet the time column is derived from the epoch field — the code
tests truthiness (`if not timestamp`), not presence, so the claim "the
explicit ISO timestamp field is preferred whenever present" fails here. -/
theorem C4_counterexample :
    ((parse_decoded (PyVal.dict
        [("_date", PyVal.str ""), ("_timestamp", PyVal.num 1704067200000)])).getD []).get? 0 =
      some (PyVal.str "2024-01-01T00:00:00") ∧
    dictGet [("_date", PyVal.str ""), ("_timestamp", PyVal.num 1704067200000)] "_date" =
      some (PyVal.str "") := by
  exact ⟨by rfl, by rfl⟩

/-- C4, amended: the time column prefers the `_date` field whenever it is
present AND truthy (non-empty); only for a falsy or absent `_date` is
the time derived from `_timestamp / 1000` (epoch milliseconds), an input
with `_timestamp` 1704067200000 and no `_date` resolving to
2024-01-01T00:00:00; when both fields are absent the epoch defaults to
0, yielding the epoch-start timestamp 1970-01-01T00:00:00. -/
theorem C4_theorem :
    (∀ data r, pyTruthy (dg data "_date") = true →
      parse_decoded (PyVal.dict data) = some r →
      r.get? 0 = some (dg data "_date")) ∧
    ((parse_decoded (PyVal.dict
        [("_timestamp", PyVal.num 1704067200000), ("deviceName", PyVal.str "d2")])).getD
      []).get? 0 = some (PyVal.str "2024-01-01T00:00:00") ∧
    (∀ data r, dictGet data "_date" = Option.none →
      dictGet data "_timestamp" = Option.none →
      parse_decoded (PyVal.dict data) = some r →
      r.get? 0 = some (PyVal.str "1970-01-01T00:00:00")) := by
  refine ⟨?_, by rfl, ?_⟩
  · intro data r h hp
    obtain ⟨data2, ts, rx_info, rx, gwloc, devloc, tx, sobj,
      hv, hts, hri, hrx, hgw, hdv, htx, hob, hr⟩ := parse_decoded_inv hp
    injection hv with hvv
    subst hvv
    simp only [resolveTs, h, if_true] at hts
    injection hts with hts2
    subst hts2
    subst hr
    rfl
  · intro data r h1 h2 hp
    obtain ⟨data2, ts, rx_info, rx, gwloc, devloc, tx, sobj,
      hv, hts, hri, hrx, hgw, hdv, htx, hob, hr⟩ := parse_decoded_inv hp
    injection hv with hvv
    subst hvv
    have hfal : pyTruthy (dg data "_date") = false := by simp [dg, h1, pyTruthy]
    simp only [resolveTs, hfal, if_false, Bool.false_eq_true] at hts
    have hdg : dgD data "_timestamp" (PyVal.num 0) = PyVal.num 0 := by simp [dgD, h2]
    rw [hdg] at hts
    simp only at hts
    injection hts with hts2
    subst hts2
    subst hr
    rfl

/-- C4, witness: the amended theorem applied at an input with a truthy
`_date` and at an input with neither timestamp field. -/
theorem C4_witness :
    ((parse_decoded (PyVal.dict [("_date", PyVal.str "2021-05-05T01:02:03")])).getD
      []).get? 0 = some (dg [("_date", PyVal.str "2021-05-05T01:02:03")] "_date") ∧
    ((parse_decoded (PyVal.dict [("adr", PyVal.bool true)])).getD []).get? 0 =
      some (PyVal.str "1970-01-01T00:00:00") := by
  constructor
  · exact C4_theorem.1 [("_date", PyVal.str "2021-05-05T01:02:03")]
      ((parse_decoded (PyVal.dict [("_date", PyVal.str "2021-05-05T01:02:03")])).getD [])
      (by rfl) (by rfl)
  · exact C4_theorem.2.2 [("adr", PyVal.bool true)]
      ((parse_decoded (PyVal.dict [("adr", PyVal.bool true)])).getD [])
      (by rfl) (by rfl) (by rfl)

/-- C8: for any decoded line without the sensor-payload field `object`,
the serialized-object column (position 33, raw_object) equals the
serialization of an empty mapping, and every dedicated reading column
(positions 19-29: temperature, humidity, dewpoint, vdd, acc_motion,
digital, waterleak, pulse_abs, x, y, z) is absent, never a default
numeric value. -/
theorem C8_theorem :
    ∀ data r, dictGet data "object" = Option.none →
      parse_decoded (PyVal.dict data) = some r →
      r.get? 33 = some (PyVal.str "\x7b\x7d") ∧
      r.get? 19 = some PyVal.none ∧ r.get? 20 = some PyVal.none ∧
      r.get? 21 = some PyVal.none ∧ r.get? 22 = some PyVal.none ∧
      r.get? 23 = some PyVal.none ∧ r.get? 24 = some PyVal.none ∧
      r.get? 25 = some PyVal.none ∧ r.get? 26 = some PyVal.none ∧
      r.get? 27 = some PyVal.none ∧ r.get? 28 = some PyVal.none ∧
      r.get? 29 = some PyVal.none := by
  intro data r h hp
  obtain ⟨data2, ts, rx_info, rx, gwloc, devloc, tx, sobj,
    hv, hts, hri, hrx, hgw, hdv, htx, hob, hr⟩ := parse_decoded_inv hp
  injection hv with hvv
  subst hvv
  have hdg : dgD data "object" (PyVal.dict []) = PyVal.dict [] := by simp [dgD, h]
  rw [hdg] at hob
  simp only [asDict] at hob
  injection hob with hob2
  subst hob2
  subst hr
  refine ⟨by rfl, ?_, ?_, ?_, ?_, ?_, ?_, ?_, ?_, ?_, ?_, ?_⟩ <;>
    simp [mkRow, dg, dictGet]

/-- C8, witness: the theorem applied to the input
`{"_date": "t"}`, which lacks the `object` field. -/
theorem C8_witness :
    ((parse_decoded (PyVal.dict [("_date", PyVal.str "t")])).getD []).get? 33 =
      some (PyVal.str "\x7b\x7d") ∧
    ((parse_decoded (PyVal.dict [("_date", PyVal.str "t")])).getD []).get? 19 =
      some PyVal.none := by
  have h := C8_theorem [("_date", PyVal.str "t")]
    ((parse_decoded (PyVal.dict [("_date", PyVal.str "t")])).getD [])
    (by rfl) (by rfl)
  exact ⟨h.1, h.2.1⟩

/-- C9: the insertion statement names exactly the 34 columns of the
spec's §6 schema in the same order, and every successfully extracted row
is an ordered tuple of exactly 34 values (whose construction order in
`parse_sensor_record` matches the column list positionally, as
`execute_batch` substitutes the tuple left to right). -/
theorem C9_theorem :
    sink_insert_columns = spec_row_schema ∧
    sink_insert_columns.length = 34 ∧
    ∀ ln r, parse_sensor_record ln = some r → r.length = 34 := by
  refine ⟨rfl, rfl, ?_⟩
  intro ln r hp
  cases hd : ln.decoded with
  | none => rw [parse_sensor_record, hd] at hp; exact Option.noConfusion hp
  | some v =>
    rw [parse_sensor_record, hd] at hp
    obtain ⟨data2, ts, rx_info, rx, gwloc, devloc, tx, sobj,
      hv, hts, hri, hrx, hgw, hdv, htx, hob, hr⟩ := parse_decoded_inv hp
    subst hr
    rfl

/-- C9, witness: the theorem applied to a concrete successfully parsed
line. -/
theorem C9_witness :
    ((parse_sensor_record ⟨false, some (PyVal.dict [("_date", PyVal.str "s")])⟩).getD
      []).length = 34 := by
  exact C9_theorem.2.2 ⟨false, some (PyVal.dict [("_date", PyVal.str "s")])⟩
    ((parse_sensor_record ⟨false, some (PyVal.dict [("_date", PyVal.str "s")])⟩).getD [])
    (by rfl)

/-- C10: on an existing input file with zero lines, `import_data` reaches
the success-rate computation with `total_lines = 0` and raises
`ZeroDivisionError` instead of printing the summary: the run on empty
input terminates with a fatal error, not a zero-count report. -/
theorem C10_theorem :
    ∀ (batch_size : Nat) (skip_errors : Bool) (wOk : Nat → Bool),
      import_data batch_size skip_errors wOk [] = RunOutcome.divByZero initState ∧
      RunOutcome.summaryOf (import_data batch_size skip_errors wOk []) = Option.none := by
  intro bs sk w
  exact ⟨rfl, rfl⟩

/-- C5: the map-rendering read query returns exactly the distinct
`(gateway_id, gateway_latitude, gateway_longitude)` triples of the sink
rows whose two gateway coordinates are both non-null — in particular a
triple is returned for every such row, so duplicate coordinate pairs
under different gateway identifiers and duplicate identifiers at
different coordinates are all preserved (they are distinct triples). -/
theorem C5_theorem :
    ∀ rows : List (List PyVal),
      (get_gateways rows).Nodup ∧
      ∀ t, t ∈ get_gateways rows ↔ ∃ r, r ∈ rows ∧ gwProj r = some t := by
  intro rows
  refine ⟨List.nodup_dedup _, fun t => ?_⟩
  simp [get_gateways, List.mem_dedup, List.mem_filterMap]

/-- C5, witness: on a sink holding two rows that share coordinates under
different gateway identifiers and a third row sharing an identifier with
different coordinates, all three triples are returned. -/
theorem C5_witness :
    ((PyVal.str "gwA", PyVal.num 1, PyVal.num 2) ∈ get_gateways
      [ List.replicate 8 PyVal.none ++ [PyVal.str "gwA", PyVal.num 1, PyVal.num 2],
        List.replicate 8 PyVal.none ++ [PyVal.str "gwB", PyVal.num 1, PyVal.num 2],
        List.replicate 8 PyVal.none ++ [PyVal.str "gwA", PyVal.num 3, PyVal.num 4] ]) ∧
    ((PyVal.str "gwB", PyVal.num 1, PyVal.num 2) ∈ get_gateways
      [ List.replicate 8 PyVal.none ++ [PyVal.str "gwA", PyVal.num 1, PyVal.num 2],
        List.replicate 8 PyVal.none ++ [PyVal.str "gwB", PyVal.num 1, PyVal.num 2],
        List.replicate 8 PyVal.none ++ [PyVal.str "gwA", PyVal.num 3, PyVal.num 4] ]) ∧
    ((PyVal.str "gwA", PyVal.num 3, PyVal.num 4) ∈ get_gateways
      [ List.replicate 8 PyVal.none ++ [PyVal.str "gwA", PyVal.num 1, PyVal.num 2],
        List.replicate 8 PyVal.none ++ [PyVal.str "gwB", PyVal.num 1, PyVal.num 2],
        List.replicate 8 PyVal.none ++ [PyVal.str "gwA", PyVal.num 3, PyVal.num 4] ]) := by
  refine ⟨?_, ?_, ?_⟩
  · exact ((C5_theorem _).2 _).mpr
      ⟨List.replicate 8 PyVal.none ++ [PyVal.str "gwA", PyVal.num 1, PyVal.num 2],
        by simp, by rfl⟩
  · exact ((C5_theorem _).2 _).mpr
      ⟨List.replicate 8 PyVal.none ++ [PyVal.str "gwB", PyVal.num 1, PyVal.num 2],
        by simp, by rfl⟩
  · exact ((C5_theorem _).2 _).mpr
      ⟨List.replicate 8 PyVal.none ++ [PyVal.str "gwA", PyVal.num 3, PyVal.num 4],
        by simp, by rfl⟩

/-- 1 when the line is non-blank and parses, else 0. -/
def lineOkInd (ln : InputLine) : Nat :=
  if !ln.blank && (parse_sensor_record ln).isSome then 1 else 0

/-- 1 when the line is non-blank and fails to parse, else 0. -/
def lineErrInd (ln : InputLine) : Nat :=
  if !ln.blank && (parse_sensor_record ln).isNone then 1 else 0

/-- `linesParsedOk` counted one line at a time. -/
theorem linesParsedOk_cons (ln : InputLine) (l : List InputLine) :
    linesParsedOk (ln :: l) = lineOkInd ln + linesParsedOk l := by
  unfold linesParsedOk lineOkInd
  cases h : (!ln.blank && (parse_sensor_record ln).isSome) <;>
    simp [List.filter_cons, h, Nat.add_comm]

/-- `linesFailed` counted one line at a time. -/
theorem linesFailed_cons (ln : InputLine) (l : List InputLine) :
    linesFailed (ln :: l) = lineErrInd ln + linesFailed l := by
  unfold linesFailed lineErrInd
  cases h : (!ln.blank && (parse_sensor_record ln).isNone) <;>
    simp [List.filter_cons, h, Nat.add_comm]

/-- A flush never changes the three counters, whichever policy and write
outcome — in particular a failed flush does not decrement the success
counter. -/
theorem flushBatch_counters (skip ok : Bool) (st : ImportState) :
    (exState (flushBatch skip ok st)).imported_lines = st.imported_lines ∧
    (exState (flushBatch skip ok st)).total_lines = st.total_lines ∧
    (exState (flushBatch skip ok st)).error_count = st.error_count := by
  cases ok <;> cases skip <;> simp [flushBatch, exState]

/-- A flush raises only under stop-on-error with a failed write. -/
theorem flushBatch_error {skip ok : Bool} {st s : ImportState}
    (h : flushBatch skip ok st = Except.error s) : skip = false ∧ ok = false := by
  cases ok <;> cases skip <;> simp_all [flushBatch]

/-- The per-line bookkeeping counts the line, counts it as imported or
as an error according to the parse outcome, and touches nothing else. -/
theorem countLine_spec (st : ImportState) (ln : InputLine) :
    (countLine st ln).total_lines = st.total_lines + 1 ∧
    (countLine st ln).imported_lines = st.imported_lines + lineOkInd ln ∧
    (countLine st ln).error_count = st.error_count + lineErrInd ln ∧
    (countLine st ln).flushes = st.flushes ∧
    (countLine st ln).sink = st.sink := by
  unfold countLine lineOkInd lineErrInd
  cases hb : ln.blank <;> cases hp : parse_sensor_record ln <;> simp [hb, hp]

/-- One loop iteration counts the line as the bookkeeping does; the
embedded flush, when it fires, preserves all three counters. -/
theorem processLine_spec (bs : Nat) (skip : Bool) (wOk : Nat → Bool)
    (st : ImportState) (ln : InputLine) :
    (exState (processLine bs skip wOk st ln)).total_lines = st.total_lines + 1 ∧
    (exState (processLine bs skip wOk st ln)).imported_lines =
      st.imported_lines + lineOkInd ln ∧
    (exState (processLine bs skip wOk st ln)).error_count =
      st.error_count + lineErrInd ln := by
  obtain ⟨h1, h2, h3, _, _⟩ := countLine_spec st ln
  simp only [processLine]
  split
  · have hf := flushBatch_counters skip (wOk (countLine st ln).flushes) (countLine st ln)
    exact ⟨hf.2.1.trans h1, hf.1.trans h2, hf.2.2.trans h3⟩
  · exact ⟨h1, h2, h3⟩

/-- A loop iteration raises only under stop-on-error after a failed
write: a decode or extract failure alone never escapes the loop. -/
theorem processLine_error {bs : Nat} {skip : Bool} {wOk : Nat → Bool}
    {st s : ImportState} {ln : InputLine}
    (h : processLine bs skip wOk st ln = Except.error s) :
    skip = false ∧ ∃ n, wOk n = false := by
  simp only [processLine] at h
  split at h
  · have hb := flushBatch_error h
    exact ⟨hb.1, _, hb.2⟩
  · exact absurd h (by simp)

/-- Master accounting of the read loop: some prefix of length `k` of the
input was processed (all of it when the loop did not raise); the line
counter grew by `k`, the success counter by the parsed count of that
prefix, and the error counter by its failed count — whatever the batch
size, the error policy, and the write outcomes. -/
theorem runLines_track (bs : Nat) (skip : Bool) (wOk : Nat → Bool) :
    ∀ (lines : List InputLine) (st : ImportState),
    ∃ k, k ≤ lines.length ∧
      (exOk (runLines bs skip wOk st lines) = true → k = lines.length) ∧
      (exState (runLines bs skip wOk st lines)).total_lines = st.total_lines + k ∧
      (exState (runLines bs skip wOk st lines)).imported_lines =
        st.imported_lines + linesParsedOk (lines.take k) ∧
      (exState (runLines bs skip wOk st lines)).error_count =
        st.error_count + linesFailed (lines.take k) := by
  intro lines
  induction lines with
  | nil =>
    intro st
    exact ⟨0, by simp [runLines, exOk, exState, linesParsedOk, linesFailed]⟩
  | cons ln rest ih =>
    intro st
    obtain ⟨hp1, hp2, hp3⟩ := processLine_spec bs skip wOk st ln
    cases hp : processLine bs skip wOk st ln with
    | error s =>
      rw [hp] at hp1 hp2 hp3
      refine ⟨1, by simp, ?_, ?_, ?_, ?_⟩ <;>
        simp only [runLines, hp, List.take_succ_cons, List.take_zero,
          linesParsedOk_cons, linesFailed_cons]
      · intro hok; exact absurd hok (by simp [exOk])
      · exact hp1
      · simpa [linesParsedOk] using hp2
      · simpa [linesFailed] using hp3
    | ok s =>
      obtain ⟨k, hk, hke, ht, hi, he⟩ := ih s
      rw [hp] at hp1 hp2 hp3
      simp only [exState] at hp1 hp2 hp3
      refine ⟨k + 1, by simpa using Nat.succ_le_succ hk, ?_, ?_, ?_, ?_⟩ <;>
        simp only [runLines, hp, List.take_succ_cons, List.length_cons,
          linesParsedOk_cons, linesFailed_cons]
      · intro hok; rw [hke hok]
      · rw [ht, hp1]; omega
      · rw [hi, hp2]; omega
      · rw [he, hp3]; omega

/-- When the policy is skip-errors, or when every write succeeds, the
read loop never raises. -/
theorem runLines_noabort (bs : Nat) (skip : Bool) (wOk : Nat → Bool)
    (hc : skip = true ∨ ∀ n, wOk n = true) :
    ∀ (lines : List InputLine) (st : ImportState),
    exOk (runLines bs skip wOk st lines) = true := by
  intro lines
  induction lines with
  | nil => intro st; rfl
  | cons ln rest ih =>
    intro st
    cases hp : processLine bs skip wOk st ln with
    | error s =>
      obtain ⟨hskip, n, hn⟩ := processLine_error hp
      cases hc with
      | inl h => rw [h] at hskip; exact Bool.noConfusion hskip
      | inr h => rw [h n] at hn; exact Bool.noConfusion hn
    | ok s => simpa [runLines, hp] using ih s

/-- The final flush and the summary step preserve the three counters:
the run's final state counts exactly what the read loop counted. -/
theorem import_data_counters (bs : Nat) (skip : Bool) (wOk : Nat → Bool)
    (lines : List InputLine) :
    (import_data bs skip wOk lines).state.total_lines =
      (exState (runLines bs skip wOk initState lines)).total_lines ∧
    (import_data bs skip wOk lines).state.imported_lines =
      (exState (runLines bs skip wOk initState lines)).imported_lines ∧
    (import_data bs skip wOk lines).state.error_count =
      (exState (runLines bs skip wOk initState lines)).error_count := by
  cases hr : runLines bs skip wOk initState lines with
  | error st1 => simp [import_data, hr, RunOutcome.state, exState]
  | ok st1 =>
    simp only [import_data, hr, exState]
    cases hfl : (if st1.batch.isEmpty then Except.ok st1
        else flushBatch skip (wOk st1.flushes) st1) with
    | error st2 =>
      simp only [hfl, RunOutcome.state]
      by_cases hb : st1.batch.isEmpty
      · rw [if_pos hb] at hfl; exact Except.noConfusion hfl
      · rw [if_neg hb] at hfl
        obtain ⟨f1, f2, f3⟩ := flushBatch_counters skip (wOk st1.flushes) st1
        rw [hfl] at f1 f2 f3
        exact ⟨f2, f1, f3⟩
    | ok st2 =>
      simp only [hfl]
      have hc : st2.total_lines = st1.total_lines ∧
          st2.imported_lines = st1.imported_lines ∧
          st2.error_count = st1.error_count := by
        by_cases hb : st1.batch.isEmpty
        · rw [if_pos hb] at hfl
          injection hfl with h2; subst h2; exact ⟨rfl, rfl, rfl⟩
        · rw [if_neg hb] at hfl
          obtain ⟨f1, f2, f3⟩ := flushBatch_counters skip (wOk st1.flushes) st1
          rw [hfl] at f1 f2 f3
          exact ⟨f2, f1, f3⟩
      by_cases h0 : st2.total_lines = 0
      · rw [if_pos h0]
        exact ⟨hc.1, hc.2.1, hc.2.2⟩
      · rw [if_neg h0]
        exact ⟨hc.1, hc.2.1, hc.2.2⟩

/-- When the read loop did not raise and either the policy is
skip-errors or every write succeeds, the run is not aborted (the final
flush cannot raise either). -/
theorem import_data_noabort (bs : Nat) (skip : Bool) (wOk : Nat → Bool)
    (lines : List InputLine)
    (hok : exOk (runLines bs skip wOk initState lines) = true)
    (hc : skip = true ∨ ∀ n, wOk n = true) :
    (import_data bs skip wOk lines).isAborted = false := by
  cases hr : runLines bs skip wOk initState lines with
  | error st1 => rw [hr] at hok; exact Bool.noConfusion hok
  | ok st1 =>
    simp only [import_data, hr]
    cases hfl : (if st1.batch.isEmpty then Except.ok st1
        else flushBatch skip (wOk st1.flushes) st1) with
    | error st2 =>
      exfalso
      by_cases hb : st1.batch.isEmpty
      · rw [if_pos hb] at hfl; exact Except.noConfusion hfl
      · rw [if_neg hb] at hfl
        obtain ⟨hskip, hw⟩ := flushBatch_error hfl
        cases hc with
        | inl h => rw [h] at hskip; exact Bool.noConfusion hskip
        | inr h => rw [h st1.flushes] at hw; exact Bool.noConfusion hw
    | ok st2 =>
      simp only [hfl]
      by_cases h0 : st2.total_lines = 0
      · rw [if_pos h0]; rfl
      · rw [if_neg h0]; rfl

/-- C2, counterexample: under the stop-on-error policy, a line that fails
to decode does NOT abort the run: with `skip_errors = False`, an
undecodable first line followed by a good line still yields a completed
(non-aborted) run that processed both lines, counting one error — the
`raise` of lines 200-201 fires only for batch-write failures, never for
per-line decode or extract failures. -/
theorem C2_counterexample :
    (import_data 1000 false (fun _ => true)
      [⟨false, Option.none⟩,
       ⟨false, some (PyVal.dict [("_date", PyVal.str "x")])⟩]).isAborted = false ∧
    (import_data 1000 false (fun _ => true)
      [⟨false, Option.none⟩,
       ⟨false, some (PyVal.dict [("_date", PyVal.str "x")])⟩]).state.total_lines = 2 ∧
    (import_data 1000 false (fun _ => true)
      [⟨false, Option.none⟩,
       ⟨false, some (PyVal.dict [("_date", PyVal.str "x")])⟩]).state.error_count = 1 := by
  exact ⟨rfl, rfl, rfl⟩

/-- C2, amended: on any decode or extract failure the coordinator
increments the error counter and continues to the next line under BOTH
error policies — only a batch-write failure can abort the run, so as
long as every write succeeds the run is never aborted, every line is
processed, and the counters tally the per-line parse outcomes. -/
theorem C2_theorem :
    ∀ (bs : Nat) (skip : Bool) (wOk : Nat → Bool) (lines : List InputLine),
      (∀ n, wOk n = true) →
      (import_data bs skip wOk lines).isAborted = false ∧
      (import_data bs skip wOk lines).state.total_lines = lines.length ∧
      (import_data bs skip wOk lines).state.error_count = linesFailed lines ∧
      (import_data bs skip wOk lines).state.imported_lines = linesParsedOk lines := by
  intro bs skip wOk lines hw
  have hok := runLines_noabort bs skip wOk (Or.inr hw) lines initState
  obtain ⟨k, hk, hke, ht, hi, he⟩ := runLines_track bs skip wOk lines initState
  have hkl := hke hok
  subst hkl
  obtain ⟨c1, c2, c3⟩ := import_data_counters bs skip wOk lines
  refine ⟨import_data_noabort bs skip wOk lines hok (Or.inr hw), ?_, ?_, ?_⟩
  · rw [c1, ht]; simp [initState]
  · rw [c3, he]; simp [initState, List.take_length]
  · rw [c2, hi]; simp [initState, List.take_length]

/-- C2, witness: the amended theorem applied to a two-line stream (one
bad, one good) under the stop-on-error policy with succeeding writes. -/
theorem C2_witness :
    (import_data 3 false (fun _ => true)
      [⟨false, Option.none⟩, ⟨true, Option.none⟩,
       ⟨false, some (PyVal.dict [("_date", PyVal.str "y")])⟩]).isAborted = false ∧
    (import_data 3 false (fun _ => true)
      [⟨false, Option.none⟩, ⟨true, Option.none⟩,
       ⟨false, some (PyVal.dict [("_date", PyVal.str "y")])⟩]).state.total_lines = 3 := by
  have h := C2_theorem 3 false (fun _ => true)
    [⟨false, Option.none⟩, ⟨true, Option.none⟩,
     ⟨false, some (PyVal.dict [("_date", PyVal.str "y")])⟩] (fun n => rfl)
  exact ⟨h.1, h.2.1⟩

/-- C3, counterexample: a run aborted by a batch-write failure under the
stop-on-error policy ends WITHOUT a printed summary — the summary block
of lines 220-226 sits inside the `try` and is skipped when the re-raised
write error escapes, contradicting the claim that every termination mode
prints the summary. -/
theorem C3_counterexample :
    RunOutcome.summaryOf (import_data 1 false (fun _ => false)
      [⟨false, some (PyVal.dict [("_date", PyVal.str "x")])⟩]) = Option.none ∧
    (import_data 1 false (fun _ => false)
      [⟨false, some (PyVal.dict [("_date", PyVal.str "x")])⟩]).isAborted = true := by
  exact ⟨rfl, rfl⟩

/-- C3, amended: a summary is printed only when the run completes
normally (no stop-on-error abort, at least one line read); whenever it
is printed it reports exactly the total line count, success count, error
count and the success rate `imported/total × 100`.  Aborted runs and the
zero-line division-by-zero path terminate with no summary. -/
theorem C3_theorem :
    ∀ (bs : Nat) (skip : Bool) (wOk : Nat → Bool) (lines : List InputLine)
      (s : Summary) (st : ImportState),
      import_data bs skip wOk lines = RunOutcome.done s st →
      s.total = st.total_lines ∧ s.success = st.imported_lines ∧
      s.errors = st.error_count ∧
      s.rate = (st.imported_lines : Rat) / (st.total_lines : Rat) * 100 ∧
      st.total_lines ≠ 0 := by
  intro bs skip wOk lines s st h
  cases hr : runLines bs skip wOk initState lines with
  | error st1 =>
    simp only [import_data, hr] at h
    exact RunOutcome.noConfusion h
  | ok st1 =>
    simp only [import_data, hr] at h
    cases hfl : (if st1.batch.isEmpty then Except.ok st1
        else flushBatch skip (wOk st1.flushes) st1) with
    | error st2 =>
      rw [hfl] at h
      exact RunOutcome.noConfusion h
    | ok st2 =>
      simp only [hfl] at h
      by_cases h0 : st2.total_lines = 0
      · rw [if_pos h0] at h
        exact RunOutcome.noConfusion h
      · rw [if_neg h0] at h
        injection h with h1 h2
        subst h2
        have hs := h1.symm
        subst hs
        exact ⟨rfl, rfl, rfl, rfl, h0⟩

/-- C3, witness: the amended theorem applied to a completed one-line
run. -/
theorem C3_witness :
    ((import_data 1 true (fun _ => true)
        [⟨false, some (PyVal.dict [("_date", PyVal.str "x")])⟩]).summaryOf.getD
      ⟨0, 0, 0, 0⟩).total =
      (import_data 1 true (fun _ => true)
        [⟨false, some (PyVal.dict [("_date", PyVal.str "x")])⟩]).state.total_lines ∧
    (import_data 1 true (fun _ => true)
        [⟨false, some (PyVal.dict [("_date", PyVal.str "x")])⟩]).state.total_lines ≠ 0 := by
  have h := C3_theorem 1 true (fun _ => true)
    [⟨false, some (PyVal.dict [("_date", PyVal.str "x")])⟩]
    ((import_data 1 true (fun _ => true)
        [⟨false, some (PyVal.dict [("_date", PyVal.str "x")])⟩]).summaryOf.getD
      ⟨0, 0, 0, 0⟩)
    ((import_data 1 true (fun _ => true)
        [⟨false, some (PyVal.dict [("_date", PyVal.str "x")])⟩]).state)
    (by rfl)
  exact ⟨h.1, h.2.2.2.2⟩

/-- C6: extraction success is counted before write success is known and
a failed flush never rolls it back — (i) a flush preserves the success
counter under every policy and write outcome; (ii) under the skip
policy, whatever the write outcomes, the run completes with the success
counter equal to the number of successfully extracted lines; (iii) under
either policy the final success counter equals the successfully
extracted count of exactly the lines that were processed. -/
theorem C6_theorem :
    (∀ (skip ok : Bool) (st : ImportState),
      (exState (flushBatch skip ok st)).imported_lines = st.imported_lines) ∧
    (∀ (bs : Nat) (wOk : Nat → Bool) (lines : List InputLine),
      (import_data bs true wOk lines).isAborted = false ∧
      (import_data bs true wOk lines).state.imported_lines = linesParsedOk lines) ∧
    (∀ (bs : Nat) (skip : Bool) (wOk : Nat → Bool) (lines : List InputLine),
      ∃ k, k ≤ lines.length ∧
        (import_data bs skip wOk lines).state.total_lines = k ∧
        (import_data bs skip wOk lines).state.imported_lines =
          linesParsedOk (lines.take k)) := by
  refine ⟨fun skip ok st => (flushBatch_counters skip ok st).1, ?_, ?_⟩
  · intro bs wOk lines
    have hok := runLines_noabort bs true wOk (Or.inl rfl) lines initState
    obtain ⟨k, hk, hke, ht, hi, he⟩ := runLines_track bs true wOk lines initState
    have hkl := hke hok
    subst hkl
    obtain ⟨c1, c2, c3⟩ := import_data_counters bs true wOk lines
    refine ⟨import_data_noabort bs true wOk lines hok (Or.inl rfl), ?_⟩
    rw [c2, hi]; simp [initState, List.take_length]
  · intro bs skip wOk lines
    obtain ⟨k, hk, hke, ht, hi, he⟩ := runLines_track bs skip wOk lines initState
    obtain ⟨c1, c2, c3⟩ := import_data_counters bs skip wOk lines
    refine ⟨k, hk, ?_, ?_⟩
    · rw [c1, ht]; simp [initState]
    · rw [c2, hi]; simp [initState]

/-- Stepping the batch counter across a flush boundary: when the batch
has just reached the full size `B`, the flush resets the residue to 0
and bumps the quotient. -/
theorem mod_div_succ_full {B k : Nat} (hB : 0 < B) (h : k % B + 1 = B) :
    (k + 1) % B = 0 ∧ (k + 1) / B = k / B + 1 := by
  have hd := Nat.div_add_mod k B
  have h1 : k + 1 = B * (k / B + 1) := by rw [Nat.mul_add, Nat.mul_one]; omega
  constructor
  · rw [h1]; exact Nat.mul_mod_right B (k / B + 1)
  · rw [h1]; exact Nat.mul_div_cancel_left _ hB

/-- Stepping the batch counter without a flush: below the full size both
residue and quotient advance trivially. -/
theorem mod_div_succ_part {B k : Nat} (hB : 0 < B) (h : k % B + 1 < B) :
    (k + 1) % B = k % B + 1 ∧ (k + 1) / B = k / B := by
  have hd := Nat.div_add_mod k B
  have h1 : k + 1 = B * (k / B) + (k % B + 1) := by omega
  constructor
  · rw [h1, Nat.mul_add_mod]; exact Nat.mod_eq_of_lt h
  · have h2 : (k % B + 1) / B = 0 := Nat.div_eq_of_lt h
    rw [h1, Nat.mul_add_div hB, h2]
    omega

/-- `⌈N/B⌉` written as `(N + B - 1) / B`, split on divisibility. -/
theorem ceil_div_eq (B N : Nat) (hB : 0 < B) :
    (N + B - 1) / B = N / B + (if N % B = 0 then 0 else 1) := by
  have hd := Nat.div_add_mod N B
  have hlt := Nat.mod_lt N hB
  by_cases h : N % B = 0
  · rw [if_pos h]
    have h1 : N + B - 1 = B * (N / B) + (B - 1) := by omega
    have h2 : (B - 1) / B = 0 := Nat.div_eq_of_lt (by omega)
    rw [h1, Nat.mul_add_div hB, h2]
  · rw [if_neg h]
    have h1 : N + B - 1 = B * (N / B + 1) + (N % B - 1) := by
      rw [Nat.mul_add, Nat.mul_one]; omega
    have h2 : (N % B - 1) / B = 0 := Nat.div_eq_of_lt (by omega)
    rw [h1, Nat.mul_add_div hB, h2]

/-- Invariant of the read loop over an all-good stream with every write
succeeding: starting from a state that has seen `k` rows (batch holding
`k % B` rows, `k / B` flushes done, sink holding the rest), processing
the remaining lines completes without raising, and the counts advance to
`k + lines.length`. -/
theorem runLines_allgood (B : Nat) (skip : Bool) (hB : 0 < B) :
    ∀ (lines : List InputLine) (k : Nat) (st : ImportState),
    (∀ ln ∈ lines, ln.blank = false ∧ (parse_sensor_record ln).isSome = true) →
    st.batch.length = k % B → st.flushes = k / B → st.sink.length = k - k % B →
    ∃ st', runLines B skip (fun _ => true) st lines = Except.ok st' ∧
      st'.batch.length = (k + lines.length) % B ∧
      st'.flushes = (k + lines.length) / B ∧
      st'.sink.length = (k + lines.length) - (k + lines.length) % B := by
  intro lines
  induction lines with
  | nil =>
    intro k st _ h1 h2 h3
    exact ⟨st, rfl, by simpa using h1, by simpa using h2, by simpa using h3⟩
  | cons ln rest ih =>
    intro k st hall h1 h2 h3
    obtain ⟨hbl, hps⟩ := hall ln (by simp)
    obtain ⟨r, hr⟩ := Option.isSome_iff_exists.mp hps
    have hmlt : k % B < B := Nat.mod_lt k hB
    have hle : k % B ≤ k := Nat.mod_le k B
    have hsub : k - k % B + k % B = k := Nat.sub_add_cancel hle
    have hidx : k + (ln :: rest).length = (k + 1) + rest.length := by
      simp [List.length_cons]; omega
    have hcl : countLine st ln =
        { st with
          total_lines := st.total_lines + 1
          batch := st.batch ++ [r]
          imported_lines := st.imported_lines + 1 } := by
      simp [countLine, hbl, hr]
    have hb2 : (countLine st ln).batch.length = st.batch.length + 1 := by
      rw [hcl]; simp
    have hshow : processLine B skip (fun _ => true) st ln =
        (if B ≤ (countLine st ln).batch.length then
          flushBatch skip true (countLine st ln)
        else Except.ok (countLine st ln)) := rfl
    by_cases hfull : k % B + 1 = B
    · have hcnd : B ≤ (countLine st ln).batch.length := by
        rw [hb2, h1]; omega
      have hproc : processLine B skip (fun _ => true) st ln =
          Except.ok
            { st with
              total_lines := st.total_lines + 1
              imported_lines := st.imported_lines + 1
              batch := []
              flushes := st.flushes + 1
              sink := st.sink ++ (st.batch ++ [r]) } := by
        rw [hshow, if_pos hcnd, hcl]; rfl
      obtain ⟨hm, hdv⟩ := mod_div_succ_full hB hfull
      obtain ⟨st', hrun, i1, i2, i3⟩ := ih (k + 1)
        { st with
          total_lines := st.total_lines + 1
          imported_lines := st.imported_lines + 1
          batch := []
          flushes := st.flushes + 1
          sink := st.sink ++ (st.batch ++ [r]) }
        (fun l hl => hall l (by simp [hl]))
        (by simp [hm])
        (by rw [hdv, h2])
        (by rw [hm, Nat.sub_zero]
            simp only [List.length_append, List.length_cons, List.length_nil]
            rw [h1, h3]
            omega)
      refine ⟨st', ?_, ?_, ?_, ?_⟩
      · simp only [runLines, hproc]; exact hrun
      · rw [hidx]; exact i1
      · rw [hidx]; exact i2
      · rw [hidx]; exact i3
    · have hcnd : ¬ B ≤ (countLine st ln).batch.length := by
        rw [hb2, h1]; omega
      have hproc : processLine B skip (fun _ => true) st ln =
          Except.ok
            { st with
              total_lines := st.total_lines + 1
              imported_lines := st.imported_lines + 1
              batch := st.batch ++ [r] } := by
        rw [hshow, if_neg hcnd, hcl]
      obtain ⟨hm, hdv⟩ := @mod_div_succ_part B k hB (by omega)
      obtain ⟨st', hrun, i1, i2, i3⟩ := ih (k + 1)
        { st with
          total_lines := st.total_lines + 1
          imported_lines := st.imported_lines + 1
          batch := st.batch ++ [r] }
        (fun l hl => hall l (by simp [hl]))
        (by rw [hm]
            simp only [List.length_append, List.length_cons, List.length_nil]
            rw [h1])
        (by rw [hdv, h2])
        (by rw [hm, h3]; omega)
      refine ⟨st', ?_, ?_, ?_, ?_⟩
      · simp only [runLines, hproc]; exact hrun
      · rw [hidx]; exact i1
      · rw [hidx]; exact i2
      · rw [hidx]; exact i3

/-- C7: for a stream of N non-blank lines that all decode and extract
successfully, with positive batch size B and no write failures, the run
performs exactly ⌈N/B⌉ = (N + B - 1) / B flush operations and exactly N
rows end up in the sink. -/
theorem C7_theorem :
    ∀ (B : Nat) (skip : Bool) (lines : List InputLine),
      0 < B →
      (∀ ln ∈ lines, ln.blank = false ∧ (parse_sensor_record ln).isSome = true) →
      (import_data B skip (fun _ => true) lines).state.flushes =
        (lines.length + B - 1) / B ∧
      (import_data B skip (fun _ => true) lines).state.sink.length = lines.length := by
  intro B skip lines hB hall
  obtain ⟨st', hrun, i1, i2, i3⟩ := runLines_allgood B skip hB lines 0 initState hall
    (by simp [initState]) (by simp [initState]) (by simp [initState])
  simp only [Nat.zero_add] at i1 i2 i3
  have hml := Nat.mod_le lines.length B
  by_cases h0 : lines.length % B = 0
  · have hbe : st'.batch.isEmpty = true := by
      cases hb : st'.batch with
      | nil => rfl
      | cons a l => rw [hb, h0] at i1; exact absurd i1 (by simp)
    have hst : (import_data B skip (fun _ => true) lines).state = st' := by
      by_cases ht0 : st'.total_lines = 0
      · simp [import_data, hrun, hbe, ht0, RunOutcome.state]
      · simp [import_data, hrun, hbe, ht0, RunOutcome.state]
    constructor
    · rw [hst, i2, ceil_div_eq B lines.length hB, if_pos h0, Nat.add_zero]
    · rw [hst, i3, h0, Nat.sub_zero]
  · have hbne : st'.batch.isEmpty = false := by
      cases hb : st'.batch with
      | nil => rw [hb] at i1; exact absurd i1.symm h0
      | cons a l => rfl
    have hstate : (import_data B skip (fun _ => true) lines).state =
        { st' with
          sink := st'.sink ++ st'.batch
          batch := []
          flushes := st'.flushes + 1 } := by
      simp only [import_data, hrun, hbne, Bool.false_eq_true, if_false, flushBatch, if_pos]
      split <;> rfl
    constructor
    · rw [hstate]
      simp only []
      rw [i2, ceil_div_eq B lines.length hB, if_neg h0]
    · rw [hstate]
      simp only [List.length_append]
      rw [i3, i1]
      omega

/-- C7, witness: the theorem applied to three good lines with batch size
two: two flushes, three rows in the sink. -/
theorem C7_witness :
    (import_data 2 true (fun _ => true)
      [⟨false, some (PyVal.dict [("_date", PyVal.str "a")])⟩,
       ⟨false, some (PyVal.dict [("_date", PyVal.str "b")])⟩,
       ⟨false, some (PyVal.dict [("_date", PyVal.str "c")])⟩]).state.flushes = 2 ∧
    (import_data 2 true (fun _ => true)
      [⟨false, some (PyVal.dict [("_date", PyVal.str "a")])⟩,
       ⟨false, some (PyVal.dict [("_date", PyVal.str "b")])⟩,
       ⟨false, some (PyVal.dict [("_date", PyVal.str "c")])⟩]).state.sink.length = 3 := by
  have h := C7_theorem 2 true
    [⟨false, some (PyVal.dict [("_date", PyVal.str "a")])⟩,
     ⟨false, some (PyVal.dict [("_date", PyVal.str "b")])⟩,
     ⟨false, some (PyVal.dict [("_date", PyVal.str "c")])⟩]
    (by decide) (by decide)
  exact ⟨h.1, h.2⟩
